import Mathlib

/-!
A verification development for the DESC repository.

Shallow embeddings of
  - the linear constraint objectives (src/desc/objectives/linear_objectives.py),
  - the optimizer dispatch wrappers (src/desc/optimize/_desc_wrappers.py),
  - the backend sign helper (decided by src/tests/test_backend.py),
together with theorems settling the specified claims.

Real numbers are modelled over `ℚ`; numpy arrays are modelled as `List ℚ` or
as functions out of `Fin n`; numpy matrices as `Matrix (Fin m) (Fin n) ℚ` or
`List (List ℚ)`; Python exceptions as `Except`.  The driver internals
(`lsqtr`, `fmintr`, `sgd`) and the optimizer registry live outside src/ and
are modelled from the spec where a claim needs them; each such definition
carries a doc comment starting with "Modelled from the spec:".
-/

namespace FixBoundaryR

/-- Embeds `FixBoundaryR.compute` (src/desc/objectives/linear_objectives.py
lines 179-185): `return jnp.dot(self._A, x)`.  The state built by `build` is
represented by the constant matrix `self._A` itself, so `compute` is a pure
function of the built state and the matrix cannot change between calls. -/
def compute {m n : ℕ} (A : Matrix (Fin m) (Fin n) ℚ) (x : Fin n → ℚ) : Fin m → ℚ :=
  A.mulVec x

/-- The `modes` constructor argument of `FixBoundaryR`: `True`, `False`,
`None`, or an explicit array of `[l, m, n]` mode triples. -/
inductive ModesArg
  | allModes
  | noModes
  | nullModes
  | givenModes (ms : List (Int × Int × Int))
deriving DecidableEq

/-- Python exceptions that `FixBoundaryR.build` can raise: the explicit
`RuntimeError` of lines 144-151, and the `NameError` that the line
`self.target = self.target[modes_idx]` would hit when `modes=None` was
passed together with a target (`modes_idx` is never assigned on that path). -/
inductive BuildError
  | runtimeError (msg : String)
  | nameError
deriving DecidableEq

/-- The constant arrays assigned by `FixBoundaryR.build`. -/
structure BuildState where
  dim_f : ℕ
  A : List (List ℚ)
  target : List ℚ
deriving DecidableEq

/-- Rows `idx` of the identity matrix `np.eye n`, embedding
`np.eye(eq.surface.R_basis.num_modes)[idx, :]` (line 167). -/
def eyeRows (n : ℕ) (idx : List ℕ) : List (List ℚ) :=
  idx.map (fun i => (List.range n).map (fun j => if j = i then 1 else 0))

/-- Indices (into `surfModes`) of the rows also present in `ms`, embedding
the `idx` output of `np.intersect1d` at lines 124-128 (assuming, as holds in
the repository, that basis mode rows are distinct and stored sorted, so that
first-array order agrees with the sorted order `intersect1d` returns). -/
def modeIdx (surfModes ms : List (Int × Int × Int)) : List ℕ :=
  (List.range surfModes.length).filter
    (fun i => decide (surfModes.getD i (0, 0, 0) ∈ ms))

/-- For each selected row, its position in the user-given array `ms`,
embedding the `modes_idx` output of `np.intersect1d`. -/
def modesIdxIntoGiven (surfModes ms : List (Int × Int × Int)) : List ℕ :=
  (modeIdx surfModes ms).map
    (fun i => ms.findIdx (fun w => decide (w = surfModes.getD i (0, 0, 0))))

/-- The message of the `RuntimeError` at lines 146-151 (the source builds it
by concatenation of four string pieces without separating spaces, which is
reproduced verbatim here). -/
def targetModesMsg : String :=
  "Attempting to provide target for R boundary modes without providing modes array!You must pass in the modes corresponding to theprovided target"

/-- Embeds `FixBoundaryR.build` (lines 99-177), in source order:
1. mode selection (lines 112-141) producing the row indices `idx`;
2. `self._dim_f = idx.size` (line 143);
3. the target check (lines 144-152): when a target was given and `modes` is
   `True` or `False`, raise `RuntimeError`; when `modes` is an array,
   re-sort the target by `modes_idx`; the `modes=None` path would hit an
   unbound `modes_idx` (`NameError`);
4. the constraint matrix `self._A` (lines 154-167): the zernike-based matrix
   of the `fixed_boundary` branch depends only on data outside this module
   and is passed in as `fixedA`; the default branch is `np.eye(...)[idx, :]`;
5. the default target from the surface coefficients (lines 169-171).
The scaling-factor normalization (lines 173-175) touches neither `A` nor
`target` and is omitted.  Step 4 happening after step 3 is what makes the
error output independent of `fixedA`. -/
def build (target0 : Option (List ℚ)) (modesArg : ModesArg) (fixed_boundary : Bool)
    (surfModes : List (Int × Int × Int)) (fixedA : List (List ℚ))
    (surf_R_lmn : List ℚ) : Except BuildError BuildState :=
  let idx : List ℕ :=
    match modesArg with
    | .noModes => []
    | .nullModes => []
    | .allModes => List.range surfModes.length
    | .givenModes ms => modeIdx surfModes ms
  let dim_f := idx.length
  let targetStep : Except BuildError (Option (List ℚ)) :=
    match target0 with
    | none => .ok none
    | some t =>
      match modesArg with
      | .allModes => .error (.runtimeError targetModesMsg)
      | .noModes => .error (.runtimeError targetModesMsg)
      | .nullModes => .error .nameError
      | .givenModes ms =>
          .ok (some ((modesIdxIntoGiven surfModes ms).map (fun j => t.getD j 0)))
  match targetStep with
  | .error e => .error e
  | .ok tgt =>
    let A := if fixed_boundary then fixedA else eyeRows surfModes.length idx
    let target :=
      match tgt with
      | some t => t
      | none => idx.map (fun i => surf_R_lmn.getD i 0)
    .ok { dim_f := dim_f, A := A, target := target }

end FixBoundaryR

namespace FixThetaSFL

/-- Embeds `FixThetaSFL.compute` (lines 525-540):
`fixed_params = L_lmn[self._idx]`.  Indexing a vector by the index array
built by `build` is modelled as composition with `idx`. -/
def compute {n k : ℕ} (idx : Fin k → Fin n) (L_lmn : Fin n → ℚ) : Fin k → ℚ :=
  fun i => L_lmn (idx i)

/-- The state assigned by `FixThetaSFL.build`. -/
structure BuildState where
  idx : List ℕ
  dim_f : ℕ
  target : List ℚ
deriving DecidableEq

/-- Embeds `FixThetaSFL.build` (lines 502-523): `idx = np.arange(num_modes)`
with `num_modes = eq.L_basis.num_modes`, `modes_idx = idx`,
`self._dim_f = modes_idx.size`, `self.target = np.zeros_like(modes_idx)`.
The `target0` argument is the target held since the constructor; the source
overwrites it unconditionally, so it is not consulted. -/
def build (target0 : Option (List ℚ)) (num_modes : ℕ) : BuildState :=
  let idx := List.range num_modes
  let modes_idx := idx
  { idx := idx, dim_f := modes_idx.length,
    target := List.replicate modes_idx.length 0 }

end FixThetaSFL

namespace FixPsi

/-- Embeds `FixPsi.compute` (lines 2373-2387): `return Psi`. -/
def compute (Psi : ℚ) : ℚ := Psi

end FixPsi

namespace DescBackend

/-- Modelled from the spec: `desc.backend.sign` is not under src (only its
test `src/tests/test_backend.py::test_sign` is).  The test docstring reads
"Test modified sign function to return +1 for x=0" and the test asserts
`sign(4) == 1`, `sign(0) == 1`, `sign(-10.3) == -1`: the modified sign maps
zero to `+1` and otherwise agrees with the usual sign. -/
def sign (x : ℚ) : ℚ :=
  if x = 0 then 1 else if 0 < x then 1 else -1

end DescBackend

/-- Python substring test `needle in hay` over character lists:
`listIsPrefixOfCL p l` is true when `p` is an initial segment of `l`. -/
def listIsPrefixOfCL : List Char → List Char → Bool
  | [], _ => true
  | _ :: _, [] => false
  | c :: cs, d :: ds => c == d && listIsPrefixOfCL cs ds

/-- True when `needle` occurs contiguously inside the character list. -/
def listContainsCL (needle : List Char) : List Char → Bool
  | [] => needle.isEmpty
  | d :: ds => listIsPrefixOfCL needle (d :: ds) || listContainsCL needle ds

/-- Embeds the Python operator `needle in hay` on strings. -/
def containsSubstr (hay needle : String) : Bool :=
  listContainsCL needle.data hay.data

/-- Left-to-right, non-overlapping replacement of `pat` by `rep`, with fuel
bounded by the list length (each step consumes at least one character). -/
def listReplaceAux (pat rep : List Char) : ℕ → List Char → List Char
  | 0, l => l
  | _ + 1, [] => []
  | fuel + 1, c :: cs =>
    if !pat.isEmpty && listIsPrefixOfCL pat (c :: cs) then
      rep ++ listReplaceAux pat rep fuel (cs.drop (pat.length - 1))
    else
      c :: listReplaceAux pat rep fuel cs

/-- Embeds Python `s.replace(pat, rep)`: replace every non-overlapping
occurrence of `pat`, scanning left to right. -/
def pyReplace (s pat rep : String) : String :=
  ⟨listReplaceAux pat.data rep.data s.data.length s.data⟩

namespace DescOptimize

/-- The `stoptol` dictionary passed to every wrapper, with the keys listed in
the docstrings of `_desc_wrappers.py`:
`{"xtol", "ftol", "gtol", "maxiter", "max_nfev", "max_njev", "max_ngev",
"max_nhev"}`. -/
structure Stoptol where
  ftol : ℚ
  xtol : ℚ
  gtol : ℚ
  maxiter : ℕ
  max_nfev : ℕ
  max_njev : ℕ
  max_ngev : ℕ
  max_nhev : ℕ
deriving DecidableEq

/-- The `options` dictionary restricted to the keys this module reads or the
spec names as recognized: `initial_trust_radius`, `max_trust_radius`,
`initial_trust_ratio`, `max_trust_ratio`.  A `none` field is an absent key. -/
structure Options where
  initial_trust_radius : Option ℚ
  max_trust_radius : Option ℚ
  initial_trust_ratio : Option ℚ
  max_trust_ratio : Option ℚ
deriving DecidableEq

/-- The empty `options` dictionary (`options = {} if options is None`). -/
def emptyOptions : Options :=
  { initial_trust_radius := none, max_trust_radius := none,
    initial_trust_ratio := none, max_trust_ratio := none }

/-- `x_scale` is either a string (such as "jac") or an array. -/
inductive XScale
  | str (s : String)
  | vec (v : List ℚ)
deriving DecidableEq

/-- Embeds `jnp.allclose(x_scale, 1)` with the numpy default tolerances
`rtol = 1e-5`, `atol = 1e-8`: every entry `a` satisfies
`|a - 1| <= atol + rtol * |1|`. -/
def allclose1 (v : List ℚ) : Bool :=
  v.all (fun a => decide (|a - 1| ≤ 1 / 100000000 + 1 / 100000))

/-- Embeds `dict.setdefault`: keep an existing value, insert the default
otherwise. -/
def setdefault (cur : Option ℚ) (v : ℚ) : Option ℚ :=
  match cur with
  | some c => some c
  | none => some v

/-- Embeds lines 63-65 of `_optimize_desc_least_squares`: when `x_scale` is
not a string and is allclose to 1, set the defaults
`initial_trust_radius = 1e-3` and `max_trust_radius = 1.0` (constants;
`x0` is not consulted, and `max_trust_ratio` is not touched). -/
def lsqFillDefaults (x_scale : XScale) (opts : Options) : Options :=
  match x_scale with
  | .str _ => opts
  | .vec v =>
    if allclose1 v then
      { opts with
        initial_trust_radius := setdefault opts.initial_trust_radius (1 / 1000),
        max_trust_radius := setdefault opts.max_trust_radius 1 }
    else opts

/-- Embeds lines 139-141 of `_optimize_desc_fmin_scalar`: the same guard, but
the keys set are `initial_trust_ratio = 1e-3` (not `initial_trust_radius`)
and `max_trust_radius = 1.0`. -/
def fminFillDefaults (x_scale : XScale) (opts : Options) : Options :=
  match x_scale with
  | .str _ => opts
  | .vec v =>
    if allclose1 v then
      { opts with
        initial_trust_ratio := setdefault opts.initial_trust_ratio (1 / 1000),
        max_trust_radius := setdefault opts.max_trust_radius 1 }
    else opts

/-- The fields of the returned `OptimizeResult` that the claims mention. -/
structure OptimizeResult where
  x : ℚ
  success : Bool
  message : String
  nit : ℕ
  nfev : ℕ
  njev : ℕ
deriving DecidableEq

/-- The keyword arguments the lsq-exact wrapper passes to `lsqtr` (lines
67-80).  The evaluation budgets are `Option` values because the wrapper
passes no budget at all: only `ftol`, `xtol`, `gtol` and `maxiter` are taken
from `stoptol`. -/
structure LsqtrArgs where
  ftol : ℚ
  xtol : ℚ
  gtol : ℚ
  maxiter : ℕ
  max_nfev : Option ℕ
  max_njev : Option ℕ
  opts : Options
deriving DecidableEq

/-- Termination message for `iteration >= maxiter` (the spec `MAX_ITER`). -/
def maxIterMsg : String := "Maximum number of iterations has been exceeded."

/-- Termination message for `nfev >= max_nfev`. -/
def maxNfevMsg : String := "Maximum number of function evaluations has been exceeded."

/-- Termination message for `njev >= max_njev`. -/
def maxNjevMsg : String := "Maximum number of Jacobian evaluations has been exceeded."

/-- Convergence message for the first-order optimality test. -/
def gtolMsg : String := "gtol condition satisfied."

/-- Convergence message for the relative step size test. -/
def xtolMsg : String := "xtol condition satisfied."

/-- Convergence message for the relative cost decrease test. -/
def ftolMsg : String := "ftol condition satisfied."

/-- An evaluation budget is hit when it is present and the counter has
reached it. -/
def budgetHit : Option ℕ → ℕ → Bool
  | none, _ => false
  | some bound, c => decide (bound ≤ c)

/-- Modelled from the spec: `desc.optimize.least_squares.lsqtr` is not under
src/.  This is the outer loop of spec section 4.3 for a one-dimensional
residual: each iteration evaluates `f(x)` and `J(x)` (incrementing `nfev`
and `njev`, respecting the evaluation budgets when they are present), tests
first-order optimality `|g| < gtol` with `g = J^T f`, takes the Gauss-Newton
step `p` (zero when the Jacobian vanishes, matching the zero-step fallback),
tests the relative step size against `xtol` and the relative cost decrease
against `ftol` (the trial evaluation increments `nfev` again), and otherwise
accepts `x + p` and recurses; `iteration >= maxiter` and budget exhaustion
terminate with `success = false` and a descriptive message, as the spec
requires, while the convergence tests terminate with `success = true`.  The
trust-radius bookkeeping of 4.3 only chooses between candidate steps and is
irrelevant to which stopping inputs exist and to how termination is
reported, so it is not modelled.  The fuel argument counts the remaining
iterations, starting at `maxiter`. -/
def lsqtrLoop (f J : ℚ → ℚ) (a : LsqtrArgs) : ℕ → ℚ → ℕ → ℕ → OptimizeResult
  | 0, x, nfev, njev =>
    { x := x, success := false, message := maxIterMsg,
      nit := a.maxiter, nfev := nfev, njev := njev }
  | fuel + 1, x, nfev, njev =>
    let fx := f x
    let Jx := J x
    let nfev1 := nfev + 1
    let njev1 := njev + 1
    if budgetHit a.max_nfev nfev1 then
      { x := x, success := false, message := maxNfevMsg,
        nit := a.maxiter - fuel, nfev := nfev1, njev := njev1 }
    else if budgetHit a.max_njev njev1 then
      { x := x, success := false, message := maxNjevMsg,
        nit := a.maxiter - fuel, nfev := nfev1, njev := njev1 }
    else if |Jx * fx| < a.gtol then
      { x := x, success := true, message := gtolMsg,
        nit := a.maxiter - fuel, nfev := nfev1, njev := njev1 }
    else
      let p := if Jx = 0 then 0 else -fx / Jx
      if |p| < a.xtol * |x| then
        { x := x, success := true, message := xtolMsg,
          nit := a.maxiter - fuel, nfev := nfev1, njev := njev1 }
      else
        let fnew := f (x + p)
        let nfev2 := nfev1 + 1
        let ar := fx * fx - fnew * fnew
        if |ar| < a.ftol * (fx * fx) then
          { x := x + p, success := true, message := ftolMsg,
            nit := a.maxiter - fuel, nfev := nfev2, njev := njev1 }
        else
          lsqtrLoop f J a fuel (x + p) nfev2 njev1

/-- Modelled from the spec: entry point of the `lsqtr` driver; runs the
outer loop from `x0` with fresh evaluation counters. -/
def lsqtr (f J : ℚ → ℚ) (x0 : ℚ) (a : LsqtrArgs) : OptimizeResult :=
  lsqtrLoop f J a a.maxiter x0 0 0

/-- The keyword-argument record the wrapper builds for `lsqtr` at lines
67-80: `ftol`, `xtol`, `gtol` and `maxiter` come from `stoptol`; no
evaluation budget is passed; `options` is forwarded. -/
def lsqExactArgs (stoptol : Stoptol) (opts : Options) : LsqtrArgs :=
  { ftol := stoptol.ftol, xtol := stoptol.xtol, gtol := stoptol.gtol,
    maxiter := stoptol.maxiter, max_nfev := none, max_njev := none,
    opts := opts }

/-- The `AssertionError` a wrapper raises at its entry assert. -/
inductive DriverError
  | assertionError (msg : String)
deriving DecidableEq

/-- The message of the entry assert (the source interpolates the method name
into it: `f"method {method} doesn't support constraints"`). -/
def assertMsg : String := "method does not support constraints"

/-- Embeds `_optimize_desc_least_squares` (lines 17-81): assert that
`constraint` is `None`; default `options` to the empty dictionary; fill the
trust-region defaults; call `lsqtr` with the objective, `x0` and the
argument record of `lsqExactArgs`.  The objective is its `compute` and `jac`
callables `f` and `J`. -/
def _optimize_desc_least_squares (f J : ℚ → ℚ) (constraint : Option Unit)
    (x0 : ℚ) (x_scale : XScale) (stoptol : Stoptol)
    (options0 : Option Options) : Except DriverError OptimizeResult :=
  match constraint with
  | some _ => .error (.assertionError assertMsg)
  | none =>
    let options := lsqFillDefaults x_scale (options0.getD emptyOptions)
    .ok (lsqtr f J x0 (lsqExactArgs stoptol options))

/-- The Hessian argument the scalar wrapper passes to `fmintr`: either the
exact Hessian callable of the objective or the string "bfgs". -/
inductive HessArg (H : Type)
  | exact (h : H)
  | bfgs
deriving DecidableEq

/-- Embeds line 138: `hess = objective.hess if "bfgs" not in method else
"bfgs"`. -/
def fminHess {H : Type} (objHess : H) (method : String) : HessArg H :=
  if containsSubstr method "bfgs" then .bfgs else .exact objHess

/-- Embeds the `method=method.replace("-bfgs", "")` argument of the `fmintr`
call at line 149. -/
def fminMethodArg (method : String) : String :=
  pyReplace method "-bfgs" ""

/-- The keyword arguments the scalar wrapper passes to `fmintr` (lines
143-158); `fmintr` itself is not under src/, so the wrapper is modelled up
to this argument record. -/
structure FmintrArgs (H : Type) where
  hess : HessArg H
  method : String
  ftol : ℚ
  xtol : ℚ
  gtol : ℚ
  maxiter : ℕ
  opts : Options
deriving DecidableEq

/-- Embeds `_optimize_desc_fmin_scalar` (lines 92-159): assert that
`constraint` is `None`; default `options`; select the Hessian model from the
method name; fill the trust-region defaults; build the `fmintr` arguments
with the `-bfgs` suffix stripped from the method name and `ftol`, `xtol`,
`gtol`, `maxiter` taken from `stoptol`. -/
def _optimize_desc_fmin_scalar {H : Type} (objHess : H) (constraint : Option Unit)
    (method : String) (x_scale : XScale) (stoptol : Stoptol)
    (options0 : Option Options) : Except DriverError (FmintrArgs H) :=
  match constraint with
  | some _ => .error (.assertionError assertMsg)
  | none =>
    let options := options0.getD emptyOptions
    let hess := fminHess objHess method
    let options := fminFillDefaults x_scale options
    .ok { hess := hess, method := fminMethodArg method,
          ftol := stoptol.ftol, xtol := stoptol.xtol, gtol := stoptol.gtol,
          maxiter := stoptol.maxiter, opts := options }

/-- Modelled from the spec: one `sgd` step of spec section 4.5,
`x <- x - eta * g(x)` with learning rate `eta`. -/
def sgdStep {n : ℕ} (eta : ℚ) (g : (Fin n → ℚ) → Fin n → ℚ)
    (x : Fin n → ℚ) : Fin n → ℚ :=
  fun i => x i - eta * g x i

/-- Modelled from the spec: `desc.optimize.stochastic.sgd` is not under
src/.  Spec section 4.5: a single first-order loop with no trust region,
iterating `x <- x - eta * g(x)` for a bounded number of iterations (an early
`xtol`/`ftol` stop would only return the then-current iterate, which under a
zero learning rate is the same point, so the fixed-count loop is the
faithful skeleton for the claims below). -/
def sgdRun {n : ℕ} (eta : ℚ) (g : (Fin n → ℚ) → Fin n → ℚ)
    (x0 : Fin n → ℚ) : ℕ → Fin n → ℚ
  | 0 => x0
  | k + 1 => sgdStep eta g (sgdRun eta g x0 k)

/-- Embeds `_optimize_desc_stochastic` (lines 170-230): assert that
`constraint` is `None`, then run the modelled `sgd` loop from `x0` for
`stoptol["maxiter"]` iterations.  The learning rate `eta` stands for the
step-size configuration the real `sgd` draws from its options. -/
def _optimize_desc_stochastic {n : ℕ} (g : (Fin n → ℚ) → Fin n → ℚ)
    (constraint : Option Unit) (x0 : Fin n → ℚ) (stoptol : Stoptol)
    (eta : ℚ) : Except DriverError (Fin n → ℚ) :=
  match constraint with
  | some _ => .error (.assertionError assertMsg)
  | none => .ok (sgdRun eta g x0 stoptol.maxiter)

/-- The capability record the registry stores for one method name.  The
driver function is identified by its source name. -/
structure DriverRecord where
  driver_fn : String
  scalar : Bool
  equality_constraints : Bool
  inequality_constraints : Bool
  stochastic : Bool
  hessian : Bool
deriving DecidableEq

/-- Modelled from the spec: `register_optimizer` (imported from
`desc.optimize.optimizer`, not under src/).  Spec section 4.6: registration
appends entries to the process-wide registry at import time; a registration
names one or several methods, each with its per-name `hessian` flag, sharing
one driver and the remaining capability flags. -/
def register_optimizer (entries : List (String × Bool)) (driver : String)
    (scalar equality inequality stochasticFlag : Bool)
    (reg : List (String × DriverRecord)) : List (String × DriverRecord) :=
  reg ++ entries.map (fun e =>
    (e.1, { driver_fn := driver, scalar := scalar,
            equality_constraints := equality,
            inequality_constraints := inequality,
            stochastic := stochasticFlag, hessian := e.2 }))

/-- The registry lookup failure of spec section 7. -/
inductive UnknownMethodError
  | unknown (name : String)
deriving DecidableEq

/-- Modelled from the spec: `resolve(name)` returns the stored driver record
or fails with `UnknownMethodError` when the name is absent (spec section
4.6); the registry performs no validation beyond lookup. -/
def resolve (reg : List (String × DriverRecord)) (name : String) :
    Except UnknownMethodError DriverRecord :=
  match reg.find? (fun p => p.1 == name) with
  | some p => .ok p.2
  | none => .error (.unknown name)

/-- The registry as populated by the three `register_optimizer` decorator
applications of `_desc_wrappers.py`, in module order: "lsq-exact" (lines
9-16), the four scalar trust-region names with per-name hessian flags
`[True, True, False, False]` (lines 84-91), and "sgd" (lines 162-169). -/
def desc_optimizer_registry : List (String × DriverRecord) :=
  register_optimizer [("sgd", false)] "_optimize_desc_stochastic"
    true false false true
    (register_optimizer
      [("dogleg", true), ("subspace", true),
       ("dogleg-bfgs", false), ("subspace-bfgs", false)]
      "_optimize_desc_fmin_scalar" true false false false
      (register_optimizer [("lsq-exact", false)] "_optimize_desc_least_squares"
        false false false false []))

/-- Concrete stopping tolerances for the budget counterexample: every
tolerance zero (so no convergence test can fire), three iterations allowed,
and function/Jacobian evaluation budgets of one. -/
def stoptolCE : Stoptol :=
  { ftol := 0, xtol := 0, gtol := 0, maxiter := 3,
    max_nfev := 1, max_njev := 1, max_ngev := 1, max_nhev := 1 }

/-- Concrete stopping tolerances with a zero iteration allowance, used by
witnesses. -/
def stoptolW : Stoptol :=
  { ftol := 0, xtol := 0, gtol := 0, maxiter := 0,
    max_nfev := 0, max_njev := 0, max_ngev := 0, max_nhev := 0 }

/-- A concrete options dictionary with a caller-supplied
`initial_trust_radius`, used by witnesses. -/
def optsW : Options :=
  { initial_trust_radius := some 5, max_trust_radius := none,
    initial_trust_ratio := none, max_trust_ratio := none }

end DescOptimize

open DescOptimize

/-- Every result the modelled `lsqtr` loop returns carries a nonempty
termination message, whether it converged or exhausted a budget. -/
theorem lsqtrLoop_message_nonempty (f J : ℚ → ℚ) (a : LsqtrArgs) :
    ∀ (fuel : ℕ) (x : ℚ) (nfev njev : ℕ),
      (lsqtrLoop f J a fuel x nfev njev).message ≠ "" := by
  intro fuel
  induction fuel with
  | zero =>
    intro x nfev njev
    simp [lsqtrLoop, maxIterMsg]
  | succ fuel ih =>
    intro x nfev njev
    rw [lsqtrLoop]
    dsimp only
    repeat' split
    all_goals
      first
        | exact ih _ _ _
        | simp [maxIterMsg, maxNfevMsg, maxNjevMsg, gtolMsg, xtolMsg, ftolMsg]

/-- C1: for every linear constraint objective in linear_objectives.py the
built `compute` is a linear map given by a constant matrix.  The catalog has
three compute shapes, each modelled from its source: a matrix product
`jnp.dot(self._A, x)` (`FixBoundaryR`, and identically `FixBoundaryZ`,
`FixLambdaGauge`, `FixAxisR/Z`, `FixSumModesR/Z`), an index selection
`x[self._idx]` (`FixThetaSFL`, and identically `FixModeR/Z` and the
`_FixProfile` family), and the identity (`FixPsi`).  Each satisfies
`compute (a*x + b*y) = a*compute x + b*compute y`, and each equals
`x -> M @ x` for a matrix `M` fixed by the built state; the embedding makes
`compute` a pure function of that state, so the matrix cannot change between
calls. -/
theorem fix_objectives_compute_is_linear :
    (∀ (m n : ℕ) (A : Matrix (Fin m) (Fin n) ℚ) (a b : ℚ) (x y : Fin n → ℚ),
        FixBoundaryR.compute A (a • x + b • y)
          = a • FixBoundaryR.compute A x + b • FixBoundaryR.compute A y) ∧
    (∀ (n k : ℕ) (idx : Fin k → Fin n) (a b : ℚ) (x y : Fin n → ℚ),
        FixThetaSFL.compute idx (a • x + b • y)
          = a • FixThetaSFL.compute idx x + b • FixThetaSFL.compute idx y) ∧
    (∀ (a b x y : ℚ),
        FixPsi.compute (a * x + b * y)
          = a * FixPsi.compute x + b * FixPsi.compute y) ∧
    (∀ (n k : ℕ) (idx : Fin k → Fin n), ∃ M : Matrix (Fin k) (Fin n) ℚ,
        ∀ x, FixThetaSFL.compute idx x = M.mulVec x) ∧
    (∃ M : Matrix (Fin 1) (Fin 1) ℚ, ∀ x : Fin 1 → ℚ,
        (fun _ : Fin 1 => FixPsi.compute (x 0)) = M.mulVec x) := by
  refine ⟨?_, ?_, ?_, ?_, ?_⟩
  · intro m n A a b x y
    simp only [FixBoundaryR.compute]
    rw [Matrix.mulVec_add, Matrix.mulVec_smul, Matrix.mulVec_smul]
  · intro n k idx a b x y
    rfl
  · intro a b x y
    rfl
  · intro n k idx
    refine ⟨Matrix.of (fun i j => if j = idx i then 1 else 0), fun x => ?_⟩
    funext i
    simp [FixThetaSFL.compute, Matrix.mulVec, Matrix.dotProduct, ite_mul,
      Finset.sum_ite_eq']
  · refine ⟨Matrix.of (fun _ _ => 1), fun x => ?_⟩
    funext i
    simp [FixPsi.compute, Matrix.mulVec, Matrix.dotProduct, Fin.sum_univ_one]

/-- C2 counterexample: a run dispatched through the lsq-exact wrapper with
`stoptol.max_nfev = stoptol.max_njev = 1` does not stop when the counters
pass those budgets: the wrapper (lines 67-80) forwards only `ftol`, `xtol`,
`gtol` and `maxiter` from `stoptol`, so the run only ends at
`iteration >= maxiter`, here with `nfev = 6 > 1` and `njev = 3 > 1`.  The
final conjunct shows the modelled `lsqtr` does stop at `nfev >= 1` when a
budget is actually passed, locating the loss in the wrapper. -/
theorem lsq_exact_ignores_stoptol_budgets_cex :
    stoptolCE.max_nfev = 1 ∧ stoptolCE.max_njev = 1 ∧
    _optimize_desc_least_squares (fun x => x) (fun _ => 1) none 1 (.vec [1])
        stoptolCE none
      = .ok { x := 0, success := false, message := maxIterMsg,
              nit := 3, nfev := 6, njev := 3 } ∧
    lsqtr (fun x => x) (fun _ => 1) 1
        { ftol := 0, xtol := 0, gtol := 0, maxiter := 3,
          max_nfev := some 1, max_njev := some 1, opts := emptyOptions }
      = { x := 1, success := false, message := maxNfevMsg,
          nit := 1, nfev := 1, njev := 1 } := by
  refine ⟨rfl, rfl, ?_, ?_⟩ <;>
    norm_num [_optimize_desc_least_squares, lsqFillDefaults, emptyOptions,
      allclose1, setdefault, lsqtr, lsqExactArgs, stoptolCE, lsqtrLoop,
      budgetHit, List.all_eq_true]

/-- C2 (amended): the lsq-exact wrapper forwards `ftol`, `xtol`, `gtol` and
`maxiter` from `stoptol` to `lsqtr` but not `max_nfev`/`max_njev`, so two
stoptol sets agreeing on those four keys give identical runs regardless of
their budgets; every run returns a valid `OptimizeResult` with a descriptive
message rather than raising, and in particular an exhausted iteration budget
returns `success = false` with the `MAX_ITER` message. -/
theorem lsq_exact_termination_behavior (f J : ℚ → ℚ) (x0 : ℚ) (xs : XScale)
    (o : Option Options) (s t : Stoptol) (hf : s.ftol = t.ftol)
    (hx : s.xtol = t.xtol) (hg : s.gtol = t.gtol)
    (hm : s.maxiter = t.maxiter) :
    _optimize_desc_least_squares f J none x0 xs s o
      = _optimize_desc_least_squares f J none x0 xs t o ∧
    (∃ r : OptimizeResult,
        _optimize_desc_least_squares f J none x0 xs s o = .ok r ∧
        r.message ≠ "") ∧
    (s.maxiter = 0 →
        _optimize_desc_least_squares f J none x0 xs s o
          = .ok { x := x0, success := false, message := maxIterMsg,
                  nit := 0, nfev := 0, njev := 0 }) := by
  have hargs : ∀ op, lsqExactArgs s op = lsqExactArgs t op := by
    intro op
    simp [lsqExactArgs, hf, hx, hg, hm]
  refine ⟨?_, ?_, ?_⟩
  · simp [_optimize_desc_least_squares, hargs]
  · exact ⟨_, rfl, lsqtrLoop_message_nonempty f J _ _ _ _ _⟩
  · intro h0
    simp [_optimize_desc_least_squares, lsqtr, lsqExactArgs, h0, lsqtrLoop]

/-- C2 witness: the amended theorem applied at a concrete objective, start
point and stoptol with a zero iteration allowance. -/
theorem lsq_exact_termination_behavior_witness :
    (_optimize_desc_least_squares (fun x => x) (fun _ => 1) none 1 (.vec [1])
        stoptolW none
      = _optimize_desc_least_squares (fun x => x) (fun _ => 1) none 1 (.vec [1])
        stoptolW none) ∧
    (∃ r : OptimizeResult,
        _optimize_desc_least_squares (fun x => x) (fun _ => 1) none 1 (.vec [1])
            stoptolW none = .ok r ∧ r.message ≠ "") ∧
    (stoptolW.maxiter = 0 →
        _optimize_desc_least_squares (fun x => x) (fun _ => 1) none 1 (.vec [1])
            stoptolW none
          = .ok { x := 1, success := false, message := maxIterMsg,
                  nit := 0, nfev := 0, njev := 0 }) :=
  lsq_exact_termination_behavior (fun x => x) (fun _ => 1) 1 (.vec [1]) none
    stoptolW stoptolW rfl rfl rfl rfl

/-- C3 counterexample: with unit `x_scale` and an empty options dictionary,
the lsq wrapper fills `initial_trust_radius = 1e-3` and
`max_trust_radius = 1.0` but leaves `max_trust_ratio` absent, and the scalar
wrapper fills `initial_trust_ratio` (not `initial_trust_radius`) and also
leaves `max_trust_ratio` absent.  The filled values are the fixed constants
of lines 64-65 and 140-141 — the defaulting code never reads `x0`, so no
value is chosen relative to its norm. -/
theorem trust_region_defaults_cex :
    lsqFillDefaults (.vec [1, 1]) emptyOptions
      = { initial_trust_radius := some (1 / 1000), max_trust_radius := some 1,
          initial_trust_ratio := none, max_trust_ratio := none } ∧
    (lsqFillDefaults (.vec [1, 1]) emptyOptions).max_trust_ratio = none ∧
    (fminFillDefaults (.vec [1, 1]) emptyOptions).initial_trust_radius
      = none ∧
    (fminFillDefaults (.vec [1, 1]) emptyOptions).max_trust_ratio = none ∧
    (fminFillDefaults (.vec [1, 1]) emptyOptions).initial_trust_ratio
      = some (1 / 1000) := by
  norm_num [lsqFillDefaults, fminFillDefaults, emptyOptions, allclose1,
    setdefault, List.all_eq_true]

/-- C3 (amended): when `x_scale` is not a string and is numerically all ones,
the lsq wrapper setdefaults `initial_trust_radius := 1e-3` and
`max_trust_radius := 1.0`, and the scalar wrapper setdefaults
`initial_trust_ratio := 1e-3` and `max_trust_radius := 1.0`; the values are
these fixed constants (the defaulting reads nothing else, in particular not
`x0`); `max_trust_ratio` is never defaulted; a caller-supplied value for any
key is never overridden; string `x_scale` leaves the options untouched. -/
theorem trust_region_defaults_behavior (v : List ℚ) (opts : Options)
    (h : allclose1 v = true) :
    (lsqFillDefaults (.vec v) opts).initial_trust_radius
      = some (opts.initial_trust_radius.getD (1 / 1000)) ∧
    (lsqFillDefaults (.vec v) opts).max_trust_radius
      = some (opts.max_trust_radius.getD 1) ∧
    (lsqFillDefaults (.vec v) opts).initial_trust_ratio
      = opts.initial_trust_ratio ∧
    (lsqFillDefaults (.vec v) opts).max_trust_ratio
      = opts.max_trust_ratio ∧
    (fminFillDefaults (.vec v) opts).initial_trust_ratio
      = some (opts.initial_trust_ratio.getD (1 / 1000)) ∧
    (fminFillDefaults (.vec v) opts).max_trust_radius
      = some (opts.max_trust_radius.getD 1) ∧
    (fminFillDefaults (.vec v) opts).initial_trust_radius
      = opts.initial_trust_radius ∧
    (fminFillDefaults (.vec v) opts).max_trust_ratio
      = opts.max_trust_ratio ∧
    (∀ s : String, lsqFillDefaults (.str s) opts = opts
                 ∧ fminFillDefaults (.str s) opts = opts) := by
  have hs : ∀ cur d, setdefault cur d = some (cur.getD d) := by
    intro cur d
    cases cur <;> rfl
  refine ⟨?_, ?_, ?_, ?_, ?_, ?_, ?_, ?_, fun s => ⟨rfl, rfl⟩⟩ <;>
    simp [lsqFillDefaults, fminFillDefaults, h, hs]

/-- C3 witness: the amended theorem at `x_scale = [1]` and an options
dictionary whose caller already supplied `initial_trust_radius = 5`; the
caller value survives and `max_trust_ratio` stays absent. -/
theorem trust_region_defaults_behavior_witness :
    allclose1 [1] = true ∧
    (lsqFillDefaults (.vec [1]) optsW).initial_trust_radius = some 5 ∧
    (fminFillDefaults (.vec [1]) optsW).max_trust_ratio = none :=
  have hall : allclose1 [1] = true := by
    norm_num [allclose1, List.all_eq_true]
  ⟨hall, (trust_region_defaults_behavior [1] optsW hall).1,
   (trust_region_defaults_behavior [1] optsW hall).2.2.2.2.2.2.2.1⟩

/-- C4 counterexample: rejection of a constrained problem is performed by the
registered drivers themselves, not by a calling layer: each wrapper opens
with `assert constraint is None` (lines 61, 136, 214), so calling any of the
three registered drivers with a non-None constraint raises the
`AssertionError` inside the driver. -/
theorem driver_constraint_rejection_cex :
    _optimize_desc_least_squares (fun x => x) (fun _ => 1) (some ()) 0
        (.vec [1]) stoptolW none = .error (.assertionError assertMsg) ∧
    @_optimize_desc_fmin_scalar Unit () (some ()) "dogleg" (.vec [1]) stoptolW
        none = .error (.assertionError assertMsg) ∧
    @_optimize_desc_stochastic 1 (fun x => x) (some ()) (fun _ => 0) stoptolW 1
      = .error (.assertionError assertMsg) :=
  ⟨rfl, rfl, rfl⟩

/-- C4 (amended): every method registered in this module declares
`equality_constraints = false`; each driver itself asserts
`constraint is None` at entry, so a call with `constraint = None` passes the
assertion and never reaches the rejection branch, while a call with a
non-None constraint fails at the assertion immediately, before any
optimization work: the error it returns is independent of the objective,
start point, scaling, tolerances and options. -/
theorem driver_constraint_rejection_behavior :
    (desc_optimizer_registry.all (fun p => !p.2.equality_constraints)
      = true) ∧
    (∀ (f J : ℚ → ℚ) (x0 : ℚ) (xs : XScale) (s : Stoptol)
        (o : Option Options),
        _optimize_desc_least_squares f J none x0 xs s o
          = .ok (lsqtr f J x0
              (lsqExactArgs s (lsqFillDefaults xs (o.getD emptyOptions))))) ∧
    (∀ (c : Unit) (f J f2 J2 : ℚ → ℚ) (x0 x02 : ℚ) (xs xs2 : XScale)
        (s s2 : Stoptol) (o o2 : Option Options),
        _optimize_desc_least_squares f J (some c) x0 xs s o
            = .error (.assertionError assertMsg) ∧
        _optimize_desc_least_squares f J (some c) x0 xs s o
            = _optimize_desc_least_squares f2 J2 (some c) x02 xs2 s2 o2) ∧
    (∀ (H : Type) (h1 h2 : H) (c : Unit) (m m2 : String) (xs xs2 : XScale)
        (s s2 : Stoptol) (o o2 : Option Options),
        _optimize_desc_fmin_scalar h1 (some c) m xs s o
            = .error (.assertionError assertMsg) ∧
        _optimize_desc_fmin_scalar h1 (some c) m xs s o
            = _optimize_desc_fmin_scalar h2 (some c) m2 xs2 s2 o2) ∧
    (∀ (n : ℕ) (g g2 : (Fin n → ℚ) → Fin n → ℚ) (c : Unit)
        (x0 x02 : Fin n → ℚ) (s s2 : Stoptol) (eta eta2 : ℚ),
        _optimize_desc_stochastic g (some c) x0 s eta
            = .error (.assertionError assertMsg) ∧
        _optimize_desc_stochastic g (some c) x0 s eta
            = _optimize_desc_stochastic g2 (some c) x02 s2 eta2) := by
  refine ⟨by decide, fun f J x0 xs s o => rfl, ?_, ?_, ?_⟩ <;>
    intros <;> exact ⟨rfl, rfl⟩

/-- C5: the scalar wrapper selects the Hessian model from the method name —
`hess = "bfgs"` whenever the name contains "bfgs", the exact objective
Hessian for "dogleg" and "subspace" — and passes the method name with the
"-bfgs" suffix removed as the step-solver variant; the per-name hessian
flags registered for dogleg, subspace, dogleg-bfgs, subspace-bfgs are True,
True, False, False. -/
theorem fmin_scalar_hessian_selection :
    (∀ (H : Type) (objHess : H) (m : String),
        containsSubstr m "bfgs" = true → fminHess objHess m = HessArg.bfgs) ∧
    (∀ (H : Type) (objHess : H),
        fminHess objHess "dogleg" = HessArg.exact objHess ∧
        fminHess objHess "subspace" = HessArg.exact objHess ∧
        fminHess objHess "dogleg-bfgs" = HessArg.bfgs ∧
        fminHess objHess "subspace-bfgs" = HessArg.bfgs) ∧
    (fminMethodArg "dogleg" = "dogleg" ∧
     fminMethodArg "subspace" = "subspace" ∧
     fminMethodArg "dogleg-bfgs" = "dogleg" ∧
     fminMethodArg "subspace-bfgs" = "subspace") ∧
    ((desc_optimizer_registry.filter
        (fun p => p.2.driver_fn == "_optimize_desc_fmin_scalar")).map
          (fun p => (p.1, p.2.hessian))
      = [("dogleg", true), ("subspace", true),
         ("dogleg-bfgs", false), ("subspace-bfgs", false)]) ∧
    (∀ (xs : XScale) (s : Stoptol) (o : Option Options),
        _optimize_desc_fmin_scalar () none "dogleg-bfgs" xs s o
          = .ok { hess := HessArg.bfgs, method := "dogleg",
                  ftol := s.ftol, xtol := s.xtol, gtol := s.gtol,
                  maxiter := s.maxiter,
                  opts := fminFillDefaults xs (o.getD emptyOptions) }) := by
  have hdog : containsSubstr "dogleg" "bfgs" = false := by decide
  have hsub : containsSubstr "subspace" "bfgs" = false := by decide
  have hdogb : containsSubstr "dogleg-bfgs" "bfgs" = true := by decide
  have hsubb : containsSubstr "subspace-bfgs" "bfgs" = true := by decide
  refine ⟨?_, ?_, by decide, by decide, ?_⟩
  · intro H objHess m hm
    simp [fminHess, hm]
  · intro H objHess
    exact ⟨by simp [fminHess, hdog], by simp [fminHess, hsub],
           by simp [fminHess, hdogb], by simp [fminHess, hsubb]⟩
  · intro xs s o
    rfl

/-- C5 witness: the quantified bfgs clause of the theorem applied at the
concrete registered name "dogleg-bfgs". -/
theorem fmin_scalar_hessian_selection_witness :
    containsSubstr "dogleg-bfgs" "bfgs" = true ∧
    fminHess () "dogleg-bfgs" = HessArg.bfgs :=
  ⟨by decide,
   fmin_scalar_hessian_selection.1 Unit () "dogleg-bfgs" (by decide)⟩

/-- C6: resolving each of the six method names registered by this module
returns exactly the driver and capability flags that were registered, and
resolving a name absent from the registry fails with `UnknownMethodError`. -/
theorem registry_resolve_roundtrip :
    resolve desc_optimizer_registry "lsq-exact"
      = .ok { driver_fn := "_optimize_desc_least_squares", scalar := false,
              equality_constraints := false, inequality_constraints := false,
              stochastic := false, hessian := false } ∧
    resolve desc_optimizer_registry "dogleg"
      = .ok { driver_fn := "_optimize_desc_fmin_scalar", scalar := true,
              equality_constraints := false, inequality_constraints := false,
              stochastic := false, hessian := true } ∧
    resolve desc_optimizer_registry "subspace"
      = .ok { driver_fn := "_optimize_desc_fmin_scalar", scalar := true,
              equality_constraints := false, inequality_constraints := false,
              stochastic := false, hessian := true } ∧
    resolve desc_optimizer_registry "dogleg-bfgs"
      = .ok { driver_fn := "_optimize_desc_fmin_scalar", scalar := true,
              equality_constraints := false, inequality_constraints := false,
              stochastic := false, hessian := false } ∧
    resolve desc_optimizer_registry "subspace-bfgs"
      = .ok { driver_fn := "_optimize_desc_fmin_scalar", scalar := true,
              equality_constraints := false, inequality_constraints := false,
              stochastic := false, hessian := false } ∧
    resolve desc_optimizer_registry "sgd"
      = .ok { driver_fn := "_optimize_desc_stochastic", scalar := true,
              equality_constraints := false, inequality_constraints := false,
              stochastic := true, hessian := false } ∧
    (∀ name : String, name ∉ desc_optimizer_registry.map Prod.fst →
        resolve desc_optimizer_registry name = .error (.unknown name)) := by
  refine ⟨rfl, rfl, rfl, rfl, rfl, rfl, ?_⟩
  intro name h
  have hf : desc_optimizer_registry.find? (fun p => p.1 == name) = none := by
    rw [List.find?_eq_none]
    intro p hp
    simp only [beq_iff_eq]
    intro he
    exact h (he ▸ List.mem_map_of_mem Prod.fst hp)
  simp [resolve, hf]

/-- C6 witness: the unregistered-name clause applied at the concrete absent
name "newton". -/
theorem registry_resolve_roundtrip_witness :
    "newton" ∉ desc_optimizer_registry.map Prod.fst ∧
    resolve desc_optimizer_registry "newton" = .error (.unknown "newton") :=
  ⟨by decide,
   registry_resolve_roundtrip.2.2.2.2.2.2 "newton" (by decide)⟩

/-- C7: running the sgd driver with learning rate 0 leaves the iterate
unchanged: the modelled loop returns `x0` after any number of iterations,
and dispatching through the wrapper returns exactly `x0`. -/
theorem sgd_zero_learning_rate_fixed_point :
    (∀ (n : ℕ) (g : (Fin n → ℚ) → Fin n → ℚ) (x0 : Fin n → ℚ) (k : ℕ),
        sgdRun 0 g x0 k = x0) ∧
    (∀ (n : ℕ) (g : (Fin n → ℚ) → Fin n → ℚ) (x0 : Fin n → ℚ) (s : Stoptol),
        _optimize_desc_stochastic g none x0 s 0 = .ok x0) := by
  have h : ∀ (n : ℕ) (g : (Fin n → ℚ) → Fin n → ℚ) (x0 : Fin n → ℚ) (k : ℕ),
      sgdRun 0 g x0 k = x0 := by
    intro n g x0 k
    induction k with
    | zero => rfl
    | succ k ih =>
      show sgdStep 0 g (sgdRun 0 g x0 k) = x0
      rw [ih]
      funext i
      simp [sgdStep]
  refine ⟨h, fun n g x0 s => ?_⟩
  simp [_optimize_desc_stochastic, h]

/-- C8: after `FixThetaSFL.build` the target is the all-zero vector of
length `eq.L_basis.num_modes`, whatever target the constructor held. -/
theorem fix_theta_sfl_build_zero_target
    (target0 : Option (List ℚ)) (num_modes : ℕ) :
    (FixThetaSFL.build target0 num_modes).target
      = List.replicate num_modes 0 ∧
    (FixThetaSFL.build target0 num_modes).target.length = num_modes ∧
    (FixThetaSFL.build target0 num_modes).dim_f = num_modes := by
  simp [FixThetaSFL.build]

/-- C9: `FixBoundaryR.build` raises the `RuntimeError` whenever a non-None
target was provided while `modes` is `True` or `False`, and it does so
before the constraint matrix `A` is constructed: the error output is the
same for every matrix the `fixed_boundary` branch would build and for every
surface coefficient vector the later default-target step would read. -/
theorem fix_boundary_r_build_target_modes_error
    (t : List ℚ) (modesArg : FixBoundaryR.ModesArg)
    (h : modesArg = .allModes ∨ modesArg = .noModes)
    (fb : Bool) (surfModes : List (Int × Int × Int))
    (fixedA fixedA2 : List (List ℚ)) (surfR surfR2 : List ℚ) :
    FixBoundaryR.build (some t) modesArg fb surfModes fixedA surfR
      = .error (.runtimeError FixBoundaryR.targetModesMsg) ∧
    FixBoundaryR.build (some t) modesArg fb surfModes fixedA surfR
      = FixBoundaryR.build (some t) modesArg fb surfModes fixedA2 surfR2 := by
  rcases h with h | h <;> subst h <;> exact ⟨rfl, rfl⟩

/-- C9 witness: the theorem applied with `modes = True`, a one-element
target and concrete surface data. -/
theorem fix_boundary_r_build_target_modes_error_witness :
    (FixBoundaryR.ModesArg.allModes = FixBoundaryR.ModesArg.allModes ∨
       FixBoundaryR.ModesArg.allModes = FixBoundaryR.ModesArg.noModes) ∧
    FixBoundaryR.build (some [1]) .allModes false [(0, 0, 0)] [] [2]
      = .error (.runtimeError FixBoundaryR.targetModesMsg) :=
  ⟨Or.inl rfl,
   (fix_boundary_r_build_target_modes_error [1] .allModes (Or.inl rfl) false
      [(0, 0, 0)] [] [[3]] [2] [5]).1⟩

/-- C10: the backend sign function returns +1 at 0, +1 on positives and -1
on negatives, and never returns 0; the last two conjuncts are the concrete
values `test_sign` asserts. -/
theorem backend_sign_spec :
    DescBackend.sign 0 = 1 ∧
    (∀ x : ℚ, 0 < x → DescBackend.sign x = 1) ∧
    (∀ x : ℚ, x < 0 → DescBackend.sign x = -1) ∧
    (∀ x : ℚ, DescBackend.sign x ≠ 0) ∧
    DescBackend.sign 4 = 1 ∧ DescBackend.sign (-103 / 10) = -1 := by
  refine ⟨by norm_num [DescBackend.sign], ?_, ?_, ?_,
    by norm_num [DescBackend.sign], by norm_num [DescBackend.sign]⟩
  · intro x hx
    simp [DescBackend.sign, hx, ne_of_gt hx]
  · intro x hx
    simp [DescBackend.sign, ne_of_lt hx, not_lt.mpr (le_of_lt hx)]
  · intro x
    by_cases h0 : x = 0
    · simp [DescBackend.sign, h0]
    · by_cases hp : 0 < x
      · simp [DescBackend.sign, h0, hp]
      · simp [DescBackend.sign, h0, hp]

/-- C10 witness: the positive and negative clauses applied at the test
inputs 4 and -10.3. -/
theorem backend_sign_spec_witness :
    (0 : ℚ) < 4 ∧ DescBackend.sign 4 = 1 ∧
    (-103 / 10 : ℚ) < 0 ∧ DescBackend.sign (-103 / 10) = -1 :=
  ⟨by norm_num, backend_sign_spec.2.1 4 (by norm_num),
   by norm_num, backend_sign_spec.2.2.1 (-103 / 10) (by norm_num)⟩
